import Mathlib

/-!
Shallow embedding of the OpenFlow State Manager core message handlers
(`OFStateManager/module/src/handlers.c`) of the of-dpa switch agent.

The handlers in `handlers.c` are translated directly.  The flow table
(`ft.c`), the connection layer, the forwarding and port collaborators and
the loci message codec are not part of the source tree; they are modelled
from the specification (each such definition carries a doc comment starting
with `Modelled from the spec:`).  External nondeterminism (allocation
success, collaborator return codes, message sizes, the clock) is captured
by an explicit environment record `Env` threaded through the handlers.

Asynchronous flow-table iteration tasks run on a single cooperative thread
and, in the absence of interleaved flow-mods, process exactly the entries
matching their query and then the terminal callback; the task bodies are
therefore embedded as folds over the list of matching entries followed by
the terminal step.
-/

/-- OpenFlow wire versions 1.0 to 1.3. -/
inductive Ver where
  | v1_0
  | v1_1
  | v1_2
  | v1_3
deriving DecidableEq

/-- Numeric wire value of a version (1.0 is 1, 1.1 is 2, 1.2 is 3, 1.3 is 4),
used for the version comparisons in the source. -/
def Ver.toWire : Ver → Nat
  | .v1_0 => 1
  | .v1_1 => 2
  | .v1_2 => 3
  | .v1_3 => 4

/-- Internal error taxonomy of the agent (spec section 7). -/
inductive IndigoErr where
  | none
  | param
  | resource
  | notFound
  | range
  | notSupported
  | unknown
deriving DecidableEq

/-- Modelled from the spec: numeric codes of the internal error taxonomy.
`NONE` is zero and every failure code is negative; the exact negative values
are not observable to the handlers, only their sign is. -/
def IndigoErr.toInt : IndigoErr → Int
  | .none => 0
  | .resource => -1
  | .param => -2
  | .range => -4
  | .notFound => -9
  | .notSupported => -10
  | .unknown => -15

/-- A normalized match structure: a partial assignment of packet bits,
written as a value together with the mask of constrained bits. -/
structure OfMatch where
  value : Nat
  mask : Nat
deriving DecidableEq

/-- Query modes of a flow-table meta-match (spec section 3). -/
inductive MatchMode where
  | strict
  | nonStrict
  | overlap
deriving DecidableEq

/-- Effects of a flow entry: the wire version they were encoded under
(actions for 1.0, instructions for later versions) and the set of output
ports named by the actions (consulted by the out-port filter). -/
structure Effects where
  wire_version : Ver
  outputPorts : List Nat
deriving DecidableEq

/-- One installed flow entry of the flow table (spec section 3). -/
structure FtEntry where
  id : Nat
  table_id : Nat
  priority : Nat
  match_ : OfMatch
  cookie : Nat
  idle_timeout : Nat
  hard_timeout : Nat
  flags : Nat
  effects : Effects
  insert_time : Nat
deriving DecidableEq

/-- Modelled from the spec: the 8-bit table-id sentinel meaning any table. -/
def TABLE_ID_ANY : Nat := 255

/-- Modelled from the spec: the out-port sentinel meaning any output port. -/
def OF_PORT_DEST_WILDCARD : Nat := 0xffffffff

/-- Modelled from the spec: the SEND_FLOW_REMOVED flow-mod flag bit. -/
def OF_FLOW_MOD_FLAG_SEND_FLOW_REMOVED_BY_VERSION (_ : Ver) : Nat := 1

/-- Modelled from the spec: the CHECK_OVERLAP flow-mod flag bit. -/
def OF_FLOW_MOD_FLAG_CHECK_OVERLAP_BY_VERSION (_ : Ver) : Nat := 2

/-- Modelled from the spec: the EMERG (emergency flow) flow-mod flag bit. -/
def OF_FLOW_MOD_FLAG_EMERG_BY_VERSION (_ : Ver) : Nat := 4

/-- Wire error types used by the handlers; the per-version macros of the
source all map a given internal kind to the same symbolic type, so the
symbolic value is recorded. `raw` covers literal numeric types such as the
type-0 placeholder errors. -/
inductive ErrType where
  | flowModFailed
  | badRequest
  | portModFailed
  | queueOpFailed
  | raw (t : Nat)
deriving DecidableEq

/-- Wire error codes used by the handlers, symbolically. -/
inductive ErrCode where
  | overlap
  | badEmergTimeout
  | allTablesFull
  | unsupported
  | eperm
  | badType
  | badExperimenter
  | badPort
  | raw (c : Nat)
deriving DecidableEq

/-- Modelled from the spec: version-indexed error-type macro for flow-mod
failures. -/
def OF_ERROR_TYPE_FLOW_MOD_FAILED_BY_VERSION (_ : Ver) : ErrType :=
  ErrType.flowModFailed

/-- Modelled from the spec: version-indexed OVERLAP error code. -/
def OF_FLOW_MOD_FAILED_OVERLAP_BY_VERSION (_ : Ver) : ErrCode :=
  ErrCode.overlap

/-- Modelled from the spec: version-indexed BAD_EMERG_TIMEOUT error code. -/
def OF_FLOW_MOD_FAILED_BAD_EMERG_TIMEOUT_BY_VERSION (_ : Ver) : ErrCode :=
  ErrCode.badEmergTimeout

/-- Modelled from the spec: version-indexed ALL_TABLES_FULL error code. -/
def OF_FLOW_MOD_FAILED_ALL_TABLES_FULL_BY_VERSION (_ : Ver) : ErrCode :=
  ErrCode.allTablesFull

/-- Modelled from the spec: version-indexed UNSUPPORTED error code. -/
def OF_FLOW_MOD_FAILED_UNSUPPORTED_BY_VERSION (_ : Ver) : ErrCode :=
  ErrCode.unsupported

/-- Modelled from the spec: version-indexed EPERM error code. -/
def OF_FLOW_MOD_FAILED_EPERM_BY_VERSION (_ : Ver) : ErrCode :=
  ErrCode.eperm

/-- Causes passed to the entry deletion routine. -/
inductive RemovedReason where
  | idleTimeout
  | hardTimeout
  | delete
  | overwrite
deriving DecidableEq

/-- Calls made into the forwarding collaborator, recorded in order. -/
inductive FwdCall where
  | flowCreate (flowId : Nat)
  | flowModify (flowId : Nat)
  | flowDelete (flowId : Nat)
  | flowStatsGet (flowId : Nat)
deriving DecidableEq

/-- One appended entry of a flow-stats reply (spec section 4.4.1). -/
structure StatsEntryRec where
  cookie : Nat
  priority : Nat
  idle_timeout : Nat
  hard_timeout : Nat
  flags : Option Nat
  match_ : OfMatch
  effectsOut : Option Effects
  table_id : Nat
  duration_sec : Nat
  duration_nsec : Nat
  packets : Nat
  bytes : Nat
deriving DecidableEq

/-- A flow-stats reply message under construction or sent: its xid, its
more-replies-follow flag, its appended entries and its wire length in
bytes (maintained by the codec; here the header length plus the sizes of
the appended entries). -/
structure FlowStatsReply where
  xid : Nat
  flagsMore : Bool
  entries : List StatsEntryRec
  length : Nat
deriving DecidableEq

/-- Wire messages emitted by the handlers, in order. -/
inductive WireEvent where
  | errorMsg (ver : Ver) (cxn : Nat) (xid : Nat) (etype : ErrType) (ecode : ErrCode)
  | flowRemoved (flowId : Nat) (reason : RemovedReason) (packets : Nat) (bytes : Nat)
  | statsReplySegment (cxn : Nat) (r : FlowStatsReply)
  | aggStatsReply (cxn : Nat) (xid : Nat) (packets : Nat) (bytes : Nat) (flows : Nat)
  | portStatsReply (cxn : Nat) (xid : Nat) (body : Nat)
deriving DecidableEq

/-- Modelled from the spec: the environment of a handler run, fixing the
outcomes of allocations, of collaborator calls (forwarding, port manager,
socket manager) and of the clock, all of which are outside the source
tree.  Function-valued fields give the collaborator result per flow id. -/
structure Env where
  allocOk : Bool
  replyAllocOk : Bool
  ft_add_rv : IndigoErr
  match_get_rv : IndigoErr
  spawn_rv : IndigoErr
  flow_create_rv : IndigoErr
  flow_create_table_id : Nat
  flow_modify_rv : Nat → IndigoErr
  flow_delete_stats : Nat → Nat × Nat
  flow_stats_rv : Nat → IndigoErr
  flow_stats_val : Nat → Nat × Nat
  port_stats_rv : IndigoErr
  port_stats_body : Nat
  send_rv : IndigoErr
  now : Nat
  replyHeaderLen : Nat
  entrySize : FtEntry → Nat

/-- A decoded flow-mod message (add, modify or delete), as read through the
accessors used by the handlers. -/
structure FlowModMsg where
  version : Ver
  xid : Nat
  flags : Nat
  idle_timeout : Nat
  hard_timeout : Nat
  priority : Nat
  table_id : Nat
  out_port : Nat
  cookie : Nat
  cookie_mask : Nat
  match_ : OfMatch
  effects : Effects
deriving DecidableEq

/-- A flow-mod query against the flow table (the `of_meta_match_t` of the
source). -/
structure MetaMatch where
  table_id : Nat
  match_ : OfMatch
  mode : MatchMode
  check_priority : Bool
  priority : Nat
  out_port : Nat
  cookie : Nat
  cookie_mask : Nat
deriving DecidableEq

/-- The flow table with its status counters (spec section 4.2);
`current_count` is the length of `entries`. -/
structure FlowTable where
  entries : List FtEntry
  adds : Nat
  deletes : Nat
  forwarding_add_errors : Nat
deriving DecidableEq

/-- Process-wide mutable state touched by the flow-mod handlers: the flow
table and the flow-id counter. -/
structure CoreState where
  ft : FlowTable
  nextFlowId : Nat
deriving DecidableEq

/-- The observable outcome of one handler invocation: the final state, the
wire messages sent, the forwarding calls made, how many times the inbound
message object was released, and the internal return value. -/
structure HandlerResult where
  ft : FlowTable
  nextFlowId : Nat
  events : List WireEvent
  calls : List FwdCall
  released : Nat
  ret : IndigoErr
deriving DecidableEq

/-- The xid allocator of `handlers.c`: a static 32-bit post-increment
counter starting at 1000.  The state is the stored counter; a call returns
the stored value and advances it modulo two to the 32. -/
def ind_core_xid_alloc (xid : Nat) : Nat × Nat :=
  (xid, (xid + 1) % 2 ^ 32)

/-- Initial value of the xid allocator counter. -/
def ind_core_xid_init : Nat := 1000

/-- The flow-id allocator `flow_id_next` of `handlers.c`: returns the
stored value, then advances it, resetting to 1 when the incremented
counter wraps to zero. -/
def flow_id_next (next_flow_id : Nat) : Nat × Nat :=
  let result := next_flow_id
  let n := (next_flow_id + 1) % 2 ^ 32
  (result, if n = 0 then 1 else n)

/-- Initial value of the flow-id allocator counter. -/
def flow_id_init : Nat := 1

/-- Modelled from the spec: strict match equality, all fields, masks and
values equal on the constrained bits. -/
def matchStrictEq (a b : OfMatch) : Bool :=
  a.mask == b.mask && (a.value &&& a.mask) == (b.value &&& b.mask)

/-- Modelled from the spec: `e` is at least as specific as `q`; every
packet matched by `e` is matched by `q`. -/
def matchMoreSpecific (e q : OfMatch) : Bool :=
  (q.mask &&& e.mask) == q.mask && (e.value &&& q.mask) == (q.value &&& q.mask)

/-- Modelled from the spec: the match bitspaces of `a` and `b` intersect;
some packet satisfies both, i.e. the values agree on the commonly
constrained bits. -/
def matchOverlaps (a b : OfMatch) : Bool :=
  (a.value &&& (a.mask &&& b.mask)) == (b.value &&& (a.mask &&& b.mask))

/-- Modelled from the spec: the cookie filter; consulted only for entries
installed under version 1.1 or later, comparing cookies under the mask. -/
def cookieMatches (q : MetaMatch) (e : FtEntry) : Bool :=
  Ver.toWire e.effects.wire_version < 2 ||
    (e.cookie &&& q.cookie_mask) == (q.cookie &&& q.cookie_mask)

/-- Modelled from the spec: the out-port filter; passes when the query
port is the wildcard or some action of the entry outputs to it. -/
def outPortMatches (q : MetaMatch) (e : FtEntry) : Bool :=
  q.out_port == OF_PORT_DEST_WILDCARD || e.effects.outputPorts.contains q.out_port

/-- Modelled from the spec: whether flow-table entry `e` satisfies query
`q` (spec section 3, match semantics for the three modes, plus the
table-id filter with its ANY sentinel). -/
def ft_entry_meta_match (q : MetaMatch) (e : FtEntry) : Bool :=
  (q.table_id == TABLE_ID_ANY || q.table_id == e.table_id) &&
  match q.mode with
  | .strict =>
      matchStrictEq q.match_ e.match_ &&
      (!q.check_priority || q.priority == e.priority) &&
      cookieMatches q e &&
      outPortMatches q e
  | .nonStrict =>
      matchMoreSpecific e.match_ q.match_ &&
      cookieMatches q e &&
      outPortMatches q e
  | .overlap =>
      matchOverlaps q.match_ e.match_ &&
      (!q.check_priority || q.priority == e.priority)

/-- Modelled from the spec: linear scan returning the first strict match. -/
def ft_strict_match (ft : FlowTable) (q : MetaMatch) : Option FtEntry :=
  ft.entries.find? (fun e => ft_entry_meta_match q e)

/-- Modelled from the spec: a fresh flow-table entry populated from a
flow-add message.  The forwarding table id is recorded after the
forwarding layer accepts the flow; the insert time is taken from the
clock at creation. -/
def ftEntryFromMsg (flowId : Nat) (obj : FlowModMsg) (now : Nat) : FtEntry :=
  { id := flowId
    table_id := 0
    priority := obj.priority
    match_ := obj.match_
    cookie := obj.cookie
    idle_timeout := obj.idle_timeout
    hard_timeout := obj.hard_timeout
    flags := obj.flags
    effects := obj.effects
    insert_time := now }

/-- Modelled from the spec: link a populated entry into the table and bump
the add counter. -/
def ft_add (ft : FlowTable) (flowId : Nat) (obj : FlowModMsg) (now : Nat) :
    FlowTable × FtEntry :=
  let e := ftEntryFromMsg flowId obj now
  ({ entries := ft.entries ++ [e]
     adds := ft.adds + 1
     deletes := ft.deletes
     forwarding_add_errors := ft.forwarding_add_errors }, e)

/-- Modelled from the spec: unlink an entry (keyed by its flow id, unique
in the table) and bump the delete counter. -/
def ft_delete (ft : FlowTable) (e : FtEntry) : FlowTable :=
  { entries := ft.entries.filter (fun x => x.id != e.id)
    adds := ft.adds
    deletes := ft.deletes + 1
    forwarding_add_errors := ft.forwarding_add_errors }

/-- Modelled from the spec: replace the effects of an entry in place,
touching neither identity nor timers nor counters. -/
def ft_entry_modify_effects (ft : FlowTable) (e : FtEntry) (obj : FlowModMsg) :
    FlowTable :=
  { ft with
    entries := ft.entries.map
      (fun x => if x.id == e.id then { x with effects := obj.effects } else x) }

/-- Modelled from the spec: the entry deletion routine (spec section
4.1.7).  It fetches final counters from forwarding, sends a flow-removed
notification when the entry asked for one and the cause is not an
overwrite, and unlinks the entry. -/
def ind_core_flow_entry_delete (env : Env) (ft : FlowTable) (e : FtEntry)
    (reason : RemovedReason) : FlowTable × List WireEvent × List FwdCall :=
  let st := env.flow_delete_stats e.id
  let evs :=
    if e.flags &&& OF_FLOW_MOD_FLAG_SEND_FLOW_REMOVED_BY_VERSION e.effects.wire_version ≠ 0
        ∧ reason ≠ RemovedReason.overwrite then
      [WireEvent.flowRemoved e.id reason st.1 st.2]
    else []
  (ft_delete ft e, evs, [FwdCall.flowDelete e.id])

/-- Modelled from the spec: duration in seconds and nanoseconds from the
insert time and the current time (both in milliseconds). -/
def calc_duration (current_time : Nat) (insert_time : Nat) : Nat × Nat :=
  ((current_time - insert_time) / 1000,
   ((current_time - insert_time) % 1000) * 1000000)

/-- The query a flow-mod handler builds from its message
(`flow_mod_setup_query`, pure part): table id from the message for
versions above 1.0 and ANY otherwise; priority read for STRICT and
OVERLAP modes; out port forced to the wildcard or read from the message;
cookie and mask read for non-OVERLAP modes at versions 1.1 and later. -/
def flow_mod_query (obj : FlowModMsg) (query_mode : MatchMode)
    (force_wildcard_port : Bool) : MetaMatch :=
  { table_id := if Ver.toWire obj.version > 1 then obj.table_id else TABLE_ID_ANY
    match_ := obj.match_
    mode := query_mode
    check_priority :=
      query_mode == MatchMode.strict || query_mode == MatchMode.overlap
    priority :=
      if query_mode == MatchMode.strict || query_mode == MatchMode.overlap then
        obj.priority
      else 0
    out_port := if force_wildcard_port then OF_PORT_DEST_WILDCARD else obj.out_port
    cookie :=
      if query_mode ≠ MatchMode.overlap ∧ Ver.toWire obj.version ≥ 2 then
        obj.cookie
      else 0
    cookie_mask :=
      if query_mode ≠ MatchMode.overlap ∧ Ver.toWire obj.version ≥ 2 then
        obj.cookie_mask
      else 0 }

/-- `flow_mod_setup_query` of the source: reading the match from the
message can fail when the message decode fails, which the environment
decides; on success the query of `flow_mod_query` is produced. -/
def flow_mod_setup_query (env : Env) (obj : FlowModMsg) (query_mode : MatchMode)
    (force_wildcard_port : Bool) : Except IndigoErr MetaMatch :=
  if env.match_get_rv ≠ IndigoErr.none then
    Except.error env.match_get_rv
  else
    Except.ok (flow_mod_query obj query_mode force_wildcard_port)

/-- `overlap_found` of the source: build an OVERLAP query with forced
wildcard out-port and scan the table; 1 when an overlap is found, 0 when
none, and the negative error code when the query setup fails. -/
def overlap_found (env : Env) (ft : FlowTable) (obj : FlowModMsg) : Int :=
  match flow_mod_setup_query env obj MatchMode.overlap true with
  | Except.error rv => rv.toInt
  | Except.ok query =>
      if ft.entries.any (fun e => ft_entry_meta_match query e) then 1 else 0

/-- `flow_mod_err_msg_send` of the source: translate an internal error
into the version-mapped flow-mod-failed error reply; no message for
`NONE`. -/
def flow_mod_err_msg_send (indigo_err : IndigoErr) (ver : Ver) (cxn_id : Nat)
    (flow_mod : FlowModMsg) : List WireEvent :=
  match indigo_err with
  | IndigoErr.none => []
  | IndigoErr.resource =>
      [WireEvent.errorMsg ver cxn_id flow_mod.xid
        (OF_ERROR_TYPE_FLOW_MOD_FAILED_BY_VERSION ver)
        (OF_FLOW_MOD_FAILED_ALL_TABLES_FULL_BY_VERSION ver)]
  | IndigoErr.notSupported =>
      [WireEvent.errorMsg ver cxn_id flow_mod.xid
        (OF_ERROR_TYPE_FLOW_MOD_FAILED_BY_VERSION ver)
        (OF_FLOW_MOD_FAILED_UNSUPPORTED_BY_VERSION ver)]
  | _ =>
      [WireEvent.errorMsg ver cxn_id flow_mod.xid
        (OF_ERROR_TYPE_FLOW_MOD_FAILED_BY_VERSION ver)
        (OF_FLOW_MOD_FAILED_EPERM_BY_VERSION ver)]

/-- `ind_core_flow_add_handler` of the source.  Overlap rejection first,
then the emergency-timeout check (whose `PARAM` status is overwritten by
the unconditional `return INDIGO_ERROR_NONE` at `done`), then deletion of
a strict-matching existing entry with cause OVERWRITE, then the insert
into the flow table and the forwarding-layer create, removing the entry
again when forwarding rejects it.  The inbound message is released at
`done` on every path. -/
def ind_core_flow_add_handler (env : Env) (cxn_id : Nat) (s : CoreState)
    (obj : FlowModMsg) : HandlerResult :=
  if obj.flags &&& OF_FLOW_MOD_FLAG_CHECK_OVERLAP_BY_VERSION obj.version ≠ 0
      ∧ overlap_found env s.ft obj ≠ 0 then
    { ft := s.ft, nextFlowId := s.nextFlowId
      events := [WireEvent.errorMsg obj.version cxn_id obj.xid
        (OF_ERROR_TYPE_FLOW_MOD_FAILED_BY_VERSION obj.version)
        (OF_FLOW_MOD_FAILED_OVERLAP_BY_VERSION obj.version)]
      calls := [], released := 1, ret := IndigoErr.none }
  else if obj.flags &&& OF_FLOW_MOD_FLAG_EMERG_BY_VERSION obj.version ≠ 0
      ∧ (obj.idle_timeout ≠ 0 ∨ obj.hard_timeout ≠ 0) then
    { ft := s.ft, nextFlowId := s.nextFlowId
      events := [WireEvent.errorMsg obj.version cxn_id obj.xid
        (OF_ERROR_TYPE_FLOW_MOD_FAILED_BY_VERSION obj.version)
        (OF_FLOW_MOD_FAILED_BAD_EMERG_TIMEOUT_BY_VERSION obj.version)]
      calls := [], released := 1, ret := IndigoErr.none }
  else
    match flow_mod_setup_query env obj MatchMode.strict true with
    | Except.error _ =>
        { ft := s.ft, nextFlowId := s.nextFlowId, events := [], calls := []
          released := 1, ret := IndigoErr.none }
    | Except.ok query =>
        let del :=
          match ft_strict_match s.ft query with
          | some entry =>
              ind_core_flow_entry_delete env s.ft entry RemovedReason.overwrite
          | none => (s.ft, ([], []))
        let fid := (flow_id_next s.nextFlowId).1
        let nfid := (flow_id_next s.nextFlowId).2
        if env.ft_add_rv = IndigoErr.none then
          let added := ft_add del.1 fid obj env.now
          if env.flow_create_rv = IndigoErr.none then
            { ft := { added.1 with
                entries := added.1.entries.map
                  (fun x =>
                    if x.id == added.2.id then
                      { x with table_id := env.flow_create_table_id }
                    else x) }
              nextFlowId := nfid
              events := del.2.1
              calls := del.2.2 ++ [FwdCall.flowCreate fid]
              released := 1, ret := IndigoErr.none }
          else
            { ft := ft_delete
                { added.1 with
                  forwarding_add_errors := added.1.forwarding_add_errors + 1 }
                added.2
              nextFlowId := nfid
              events := del.2.1 ++
                flow_mod_err_msg_send env.flow_create_rv obj.version cxn_id obj
              calls := del.2.2 ++ [FwdCall.flowCreate fid]
              released := 1, ret := IndigoErr.none }
        else
          { ft := del.1, nextFlowId := nfid, events := del.2.1
            calls := del.2.2, released := 1, ret := IndigoErr.none }

/-- Accumulator of the non-strict modify and delete iteration tasks: the
flow table as mutated so far, the per-entry match counter of the task
state, and the outputs gathered so far. -/
structure ModAcc where
  ft : FlowTable
  num_matched : Nat
  events : List WireEvent
  calls : List FwdCall
deriving DecidableEq

/-- The `entry != NULL` branch of `modify_iter_cb`: count the match, ask
forwarding to modify the flow, and on success replace the entry effects;
on failure send the version-mapped error. -/
def modify_iter_cb_entry (env : Env) (cxn_id : Nat) (request : FlowModMsg)
    (acc : ModAcc) (e : FtEntry) : ModAcc :=
  let calls := acc.calls ++ [FwdCall.flowModify e.id]
  if env.flow_modify_rv e.id = IndigoErr.none then
    { ft := ft_entry_modify_effects acc.ft e request
      num_matched := acc.num_matched + 1
      events := acc.events, calls := calls }
  else
    { ft := acc.ft
      num_matched := acc.num_matched + 1
      events := acc.events ++
        flow_mod_err_msg_send (env.flow_modify_rv e.id) request.version cxn_id request
      calls := calls }

/-- `ind_core_flow_modify_handler` of the source together with the task it
spawns, run to completion: allocate the iteration state (on failure the
source returns `RESOURCE` without releasing the message), build a
NON_STRICT query with forced wildcard out-port, then run `modify_iter_cb`
over every matching entry and once terminally.  The terminal callback
treats a zero match count as an add, transferring message ownership to
the add handler; otherwise it releases the message. -/
def ind_core_flow_modify_handler (env : Env) (cxn_id : Nat) (s : CoreState)
    (obj : FlowModMsg) : HandlerResult :=
  if env.allocOk then
    match flow_mod_setup_query env obj MatchMode.nonStrict true with
    | Except.error rv =>
        { ft := s.ft, nextFlowId := s.nextFlowId, events := [], calls := []
          released := 1, ret := rv }
    | Except.ok query =>
        if env.spawn_rv = IndigoErr.none then
          let matched := s.ft.entries.filter (fun e => ft_entry_meta_match query e)
          let acc := matched.foldl (modify_iter_cb_entry env cxn_id obj)
            { ft := s.ft, num_matched := 0, events := [], calls := [] }
          if acc.num_matched = 0 then
            let r := ind_core_flow_add_handler env cxn_id
              { ft := acc.ft, nextFlowId := s.nextFlowId } obj
            { ft := r.ft, nextFlowId := r.nextFlowId
              events := acc.events ++ r.events
              calls := acc.calls ++ r.calls
              released := r.released, ret := IndigoErr.none }
          else
            { ft := acc.ft, nextFlowId := s.nextFlowId
              events := acc.events, calls := acc.calls
              released := 1, ret := IndigoErr.none }
        else
          { ft := s.ft, nextFlowId := s.nextFlowId, events := [], calls := []
            released := 1, ret := env.spawn_rv }
  else
    { ft := s.ft, nextFlowId := s.nextFlowId, events := [], calls := []
      released := 0, ret := IndigoErr.resource }

/-- `ind_core_flow_modify_strict_handler` of the source: synchronous;
build a STRICT query with forced wildcard out-port; when nothing matches,
treat as an add (transferring the message); otherwise ask forwarding to
modify the flow, replacing the effects on success and sending the
version-mapped error on failure, and release the message. -/
def ind_core_flow_modify_strict_handler (env : Env) (cxn_id : Nat)
    (s : CoreState) (obj : FlowModMsg) : HandlerResult :=
  match flow_mod_setup_query env obj MatchMode.strict true with
  | Except.error rv =>
      { ft := s.ft, nextFlowId := s.nextFlowId, events := [], calls := []
        released := 1, ret := rv }
  | Except.ok query =>
      match ft_strict_match s.ft query with
      | none => ind_core_flow_add_handler env cxn_id s obj
      | some entry =>
          if env.flow_modify_rv entry.id = IndigoErr.none then
            { ft := ft_entry_modify_effects s.ft entry obj
              nextFlowId := s.nextFlowId
              events := [], calls := [FwdCall.flowModify entry.id]
              released := 1, ret := env.flow_modify_rv entry.id }
          else
            { ft := s.ft, nextFlowId := s.nextFlowId
              events := flow_mod_err_msg_send (env.flow_modify_rv entry.id)
                obj.version cxn_id obj
              calls := [FwdCall.flowModify entry.id]
              released := 1, ret := env.flow_modify_rv entry.id }

/-- The `entry != NULL` branch of `delete_iter_cb`: run the entry deletion
routine with cause DELETE. -/
def delete_iter_cb_entry (env : Env) (acc : ModAcc) (e : FtEntry) : ModAcc :=
  let d := ind_core_flow_entry_delete env acc.ft e RemovedReason.delete
  { ft := d.1, num_matched := acc.num_matched
    events := acc.events ++ d.2.1
    calls := acc.calls ++ d.2.2 }

/-- `ind_core_flow_delete_handler` of the source together with the task it
spawns, run to completion: allocate the iteration state (on failure the
source releases the message and returns `RESOURCE`), build a NON_STRICT
query honoring the message out-port, and run `delete_iter_cb` over every
matching entry; the terminal callback releases the message. -/
def ind_core_flow_delete_handler (env : Env) (cxn_id : Nat) (s : CoreState)
    (obj : FlowModMsg) : HandlerResult :=
  if env.allocOk then
    match flow_mod_setup_query env obj MatchMode.nonStrict false with
    | Except.error rv =>
        { ft := s.ft, nextFlowId := s.nextFlowId, events := [], calls := []
          released := 1, ret := rv }
    | Except.ok query =>
        if env.spawn_rv = IndigoErr.none then
          let matched := s.ft.entries.filter (fun e => ft_entry_meta_match query e)
          let acc := matched.foldl (delete_iter_cb_entry env)
            { ft := s.ft, num_matched := 0, events := [], calls := [] }
          { ft := acc.ft, nextFlowId := s.nextFlowId
            events := acc.events, calls := acc.calls
            released := 1, ret := IndigoErr.none }
        else
          { ft := s.ft, nextFlowId := s.nextFlowId, events := [], calls := []
            released := 1, ret := env.spawn_rv }
  else
    { ft := s.ft, nextFlowId := s.nextFlowId, events := [], calls := []
      released := 1, ret := IndigoErr.resource }

/-- A decoded flow-stats or aggregate-stats request, as read through the
accessors used by the handlers. -/
structure FlowStatsReq where
  version : Ver
  xid : Nat
  table_id : Nat
  out_port : Nat
  cookie : Nat
  cookie_mask : Nat
  match_ : OfMatch
deriving DecidableEq

/-- The query a flow-stats or aggregate-stats handler builds inline from
its request: non-strict, no priority check, cookie and mask read at
versions 1.1 and later. -/
def flow_stats_query (req : FlowStatsReq) : MetaMatch :=
  { table_id := req.table_id
    match_ := req.match_
    mode := MatchMode.nonStrict
    check_priority := false
    priority := 0
    out_port := req.out_port
    cookie := if Ver.toWire req.version ≥ 2 then req.cookie else 0
    cookie_mask := if Ver.toWire req.version ≥ 2 then req.cookie_mask else 0 }

/-- A freshly allocated flow-stats reply: the request xid, the more flag
set, no entries, the header length given by the codec. -/
def freshFlowStatsReply (env : Env) (req : FlowStatsReq) : FlowStatsReply :=
  { xid := req.xid, flagsMore := true, entries := [], length := env.replyHeaderLen }

/-- The flow-stats entry appended for a matched flow: cookie, priority,
timeouts, flags for 1.3 and later, match, effects when the versions agree,
table id, duration from insert time and current time, and the counters
fetched from forwarding. -/
def flow_stats_entry_of (env : Env) (req : FlowStatsReq) (e : FtEntry) :
    StatsEntryRec :=
  let d := calc_duration env.now e.insert_time
  let st := env.flow_stats_val e.id
  { cookie := e.cookie
    priority := e.priority
    idle_timeout := e.idle_timeout
    hard_timeout := e.hard_timeout
    flags := if Ver.toWire req.version ≥ Ver.toWire Ver.v1_3 then some e.flags else none
    match_ := e.match_
    effectsOut := if req.version = e.effects.wire_version then some e.effects else none
    table_id := e.table_id
    duration_sec := d.1
    duration_nsec := d.2
    packets := st.1
    bytes := st.2 }

/-- Accumulator of the streaming flow-stats iteration: the reply under
construction if any, and the outputs so far. -/
structure FlowStatsAcc where
  reply : Option FlowStatsReply
  events : List WireEvent
  calls : List FwdCall
deriving DecidableEq

/-- The `entry != NULL` branch of `ind_core_flow_stats_iter`: lazily
allocate a reply (returning unchanged when the allocation fails), fetch
counters from forwarding (skipping the entry on failure), skip entries
whose effects wire version differs from the request version, append the
stats entry, and when the reply length now exceeds 32 KiB send it as a
partial segment and clear it. -/
def ind_core_flow_stats_iter_step (env : Env) (cxn_id : Nat)
    (req : FlowStatsReq) (acc : FlowStatsAcc) (e : FtEntry) : FlowStatsAcc :=
  let replyOpt : Option FlowStatsReply :=
    match acc.reply with
    | some r => some r
    | none => if env.replyAllocOk then some (freshFlowStatsReply env req) else none
  match replyOpt with
  | none => acc
  | some r =>
      let calls := acc.calls ++ [FwdCall.flowStatsGet e.id]
      if env.flow_stats_rv e.id ≠ IndigoErr.none then
        { reply := some r, events := acc.events, calls := calls }
      else if req.version ≠ e.effects.wire_version then
        { reply := some r, events := acc.events, calls := calls }
      else
        let r2 := { r with
          entries := r.entries ++ [flow_stats_entry_of env req e]
          length := r.length + env.entrySize e }
        if 1 <<< 15 < r2.length then
          { reply := none
            events := acc.events ++ [WireEvent.statsReplySegment cxn_id r2]
            calls := calls }
        else
          { reply := some r2, events := acc.events, calls := calls }

/-- The `entry == NULL` terminal branch of `ind_core_flow_stats_iter`:
allocate an empty reply when none is pending (cleaning up silently when
even that fails), clear the more flag and send the final segment; the
request is then released and the state freed. -/
def ind_core_flow_stats_iter_done (env : Env) (cxn_id : Nat)
    (req : FlowStatsReq) (acc : FlowStatsAcc) : FlowStatsAcc :=
  match acc.reply with
  | some r =>
      { reply := none
        events := acc.events ++
          [WireEvent.statsReplySegment cxn_id { r with flagsMore := false }]
        calls := acc.calls }
  | none =>
      if env.replyAllocOk then
        { reply := none
          events := acc.events ++
            [WireEvent.statsReplySegment cxn_id
              { freshFlowStatsReply env req with flagsMore := false }]
          calls := acc.calls }
      else acc

/-- `ind_core_flow_stats_request_handler` of the source together with the
task it spawns, run to completion: reading the match can fail (returning
`UNKNOWN`), allocating the iteration state can fail (releasing the
request and returning `RESOURCE`), spawning can fail (likewise returning
the spawn error); otherwise the iterator runs over every matching entry
and then terminally, after which the request has been released once. -/
def ind_core_flow_stats_request_handler (env : Env) (cxn_id : Nat)
    (s : CoreState) (req : FlowStatsReq) : HandlerResult :=
  if env.match_get_rv ≠ IndigoErr.none then
    { ft := s.ft, nextFlowId := s.nextFlowId, events := [], calls := []
      released := 1, ret := IndigoErr.unknown }
  else
    let query := flow_stats_query req
    if env.allocOk then
      if env.spawn_rv = IndigoErr.none then
        let matched := s.ft.entries.filter (fun e => ft_entry_meta_match query e)
        let acc := matched.foldl (ind_core_flow_stats_iter_step env cxn_id req)
          { reply := none, events := [], calls := [] }
        let acc2 := ind_core_flow_stats_iter_done env cxn_id req acc
        { ft := s.ft, nextFlowId := s.nextFlowId
          events := acc2.events, calls := acc2.calls
          released := 1, ret := IndigoErr.none }
      else
        { ft := s.ft, nextFlowId := s.nextFlowId, events := [], calls := []
          released := 1, ret := env.spawn_rv }
    else
      { ft := s.ft, nextFlowId := s.nextFlowId, events := [], calls := []
        released := 1, ret := IndigoErr.resource }

/-- Accumulator of the aggregate-stats iteration. -/
structure AggAcc where
  packets : Nat
  bytes : Nat
  flows : Nat
  calls : List FwdCall
deriving DecidableEq

/-- The `entry != NULL` branch of `ind_core_aggregate_stats_iter`: fetch
counters from forwarding (skipping the entry on failure) and accumulate
them. -/
def ind_core_aggregate_stats_iter_entry (env : Env) (acc : AggAcc)
    (e : FtEntry) : AggAcc :=
  let calls := acc.calls ++ [FwdCall.flowStatsGet e.id]
  if env.flow_stats_rv e.id ≠ IndigoErr.none then
    { acc with calls := calls }
  else
    let st := env.flow_stats_val e.id
    { packets := acc.packets + st.1
      bytes := acc.bytes + st.2
      flows := acc.flows + 1
      calls := calls }

/-- `ind_core_aggregate_stats_request_handler` of the source together
with the task it spawns, run to completion: on terminal the reply with
the sums is sent when its allocation succeeds, and the request is
released either way. -/
def ind_core_aggregate_stats_request_handler (env : Env) (cxn_id : Nat)
    (s : CoreState) (req : FlowStatsReq) : HandlerResult :=
  if env.match_get_rv ≠ IndigoErr.none then
    { ft := s.ft, nextFlowId := s.nextFlowId, events := [], calls := []
      released := 1, ret := IndigoErr.unknown }
  else
    let query := flow_stats_query req
    if env.allocOk then
      if env.spawn_rv = IndigoErr.none then
        let matched := s.ft.entries.filter (fun e => ft_entry_meta_match query e)
        let acc := matched.foldl (ind_core_aggregate_stats_iter_entry env)
          { packets := 0, bytes := 0, flows := 0, calls := [] }
        { ft := s.ft, nextFlowId := s.nextFlowId
          events :=
            if env.replyAllocOk then
              [WireEvent.aggStatsReply cxn_id req.xid acc.packets acc.bytes acc.flows]
            else []
          calls := acc.calls
          released := 1, ret := IndigoErr.none }
      else
        { ft := s.ft, nextFlowId := s.nextFlowId, events := [], calls := []
          released := 1, ret := env.spawn_rv }
    else
      { ft := s.ft, nextFlowId := s.nextFlowId, events := [], calls := []
        released := 1, ret := IndigoErr.resource }

/-- A decoded port-stats request. -/
structure PortStatsReq where
  version : Ver
  xid : Nat
  port_no : Nat
deriving DecidableEq

/-- The outcome of the port-stats handler, which touches no flow state. -/
structure PortStatsResult where
  events : List WireEvent
  released : Nat
  ret : IndigoErr
deriving DecidableEq

/-- `ind_core_port_stats_request_handler` of the source: a local xid
variable starts at zero and is read from the request only on the success
path, where it is copied onto the reply before sending; on failure the
error message is sent with the local xid still zero.  The request is
released and the last collaborator status returned. -/
def ind_core_port_stats_request_handler (env : Env) (cxn_id : Nat)
    (req : PortStatsReq) : PortStatsResult :=
  if env.port_stats_rv = IndigoErr.none then
    { events := [WireEvent.portStatsReply cxn_id req.xid env.port_stats_body]
      released := 1, ret := env.send_rv }
  else
    { events := [WireEvent.errorMsg req.version cxn_id 0 (ErrType.raw 0) (ErrCode.raw 0)]
      released := 1, ret := env.port_stats_rv }

/-- The entries carried by a wire event: the appended entries of a
flow-stats segment, nothing for other messages. -/
def segEntries : WireEvent → List StatsEntryRec
  | WireEvent.statsReplySegment _ r => r.entries
  | _ => []

/-- All flow-stats entries carried by a list of wire events, in order. -/
def sentStatsEntries : List WireEvent → List StatsEntryRec
  | [] => []
  | ev :: rest => segEntries ev ++ sentStatsEntries rest

/-- All flow-stats entries accounted for by an iteration accumulator:
those already sent followed by those pending in the reply under
construction. -/
def accStatsEntries (acc : FlowStatsAcc) : List StatsEntryRec :=
  sentStatsEntries acc.events ++
    (match acc.reply with
     | some r => r.entries
     | none => [])

/-- Size bounds of one wire event for the streaming flow-stats size
analysis: flow-stats segments stay within one entry of the 32 KiB
threshold, exceed it when partial, and stay below it when final; other
events are unconstrained. -/
def eventWithin (B : Nat) : WireEvent → Prop
  | WireEvent.statsReplySegment _ r =>
      r.length ≤ 1 <<< 15 + B ∧
      (r.flagsMore = true → 1 <<< 15 < r.length) ∧
      (r.flagsMore = false → r.length ≤ 1 <<< 15)
  | _ => True

/-- Invariant of the streaming flow-stats iteration: every segment sent
so far satisfies the size bounds, and any reply under construction is at
most 32 KiB long and still flagged as partial. -/
def statsAccWithin (B : Nat) (acc : FlowStatsAcc) : Prop :=
  (∀ ev ∈ acc.events, eventWithin B ev) ∧
  (∀ r, acc.reply = some r → r.length ≤ 1 <<< 15 ∧ r.flagsMore = true)

/-- A benign environment: every allocation and collaborator call
succeeds, the clock reads 5000 ms, the stats reply header is 10 bytes and
every appended stats entry is 20000 bytes. -/
def envOk : Env :=
  { allocOk := true
    replyAllocOk := true
    ft_add_rv := IndigoErr.none
    match_get_rv := IndigoErr.none
    spawn_rv := IndigoErr.none
    flow_create_rv := IndigoErr.none
    flow_create_table_id := 0
    flow_modify_rv := fun _ => IndigoErr.none
    flow_delete_stats := fun _ => (0, 0)
    flow_stats_rv := fun _ => IndigoErr.none
    flow_stats_val := fun _ => (0, 0)
    port_stats_rv := IndigoErr.none
    port_stats_body := 0
    send_rv := IndigoErr.none
    now := 5000
    replyHeaderLen := 10
    entrySize := fun _ => 20000 }

/-- The benign environment with the bookkeeping-state allocation failing. -/
def envAllocFail : Env := { envOk with allocOk := false }

/-- The benign environment with the port manager failing the stats request. -/
def envC5 : Env := { envOk with port_stats_rv := IndigoErr.notFound }

/-- The benign environment with the forwarding layer rejecting flow creation. -/
def envC10 : Env := { envOk with flow_create_rv := IndigoErr.notSupported }

/-- The empty flow table. -/
def emptyFT : FlowTable :=
  { entries := [], adds := 0, deletes := 0, forwarding_add_errors := 0 }

/-- Core state with an empty flow table. -/
def s0 : CoreState := { ft := emptyFT, nextFlowId := 1 }

/-- A plain version-1.0 flow-mod message with no flags. -/
def msg0 : FlowModMsg :=
  { version := Ver.v1_0, xid := 17, flags := 0, idle_timeout := 0
    hard_timeout := 0, priority := 100, table_id := 0, out_port := 1
    cookie := 0, cookie_mask := 0, match_ := { value := 8, mask := 15 }
    effects := { wire_version := Ver.v1_0, outputPorts := [1] } }

/-- A version-1.0 flow-add with the EMERG flag and a nonzero idle timeout. -/
def msgEmerg : FlowModMsg :=
  { version := Ver.v1_0, xid := 77, flags := 4, idle_timeout := 1
    hard_timeout := 0, priority := 0, table_id := 0, out_port := 0
    cookie := 0, cookie_mask := 0, match_ := { value := 0, mask := 0 }
    effects := { wire_version := Ver.v1_0, outputPorts := [] } }

/-- An installed flow entry at priority 100 matching one exact byte. -/
def entryA : FtEntry :=
  { id := 10, table_id := 0, priority := 100
    match_ := { value := 1, mask := 255 }, cookie := 0
    idle_timeout := 0, hard_timeout := 0, flags := 0
    effects := { wire_version := Ver.v1_0, outputPorts := [1] }
    insert_time := 0 }

/-- Core state holding exactly `entryA`. -/
def sA : CoreState :=
  { ft := { entries := [entryA], adds := 1, deletes := 0
            forwarding_add_errors := 0 }
    nextFlowId := 2 }

/-- A version-1.0 flow-add at priority 100 with CHECK_OVERLAP set and a
fully wildcarded match, overlapping `entryA`. -/
def msgOverlapB : FlowModMsg :=
  { version := Ver.v1_0, xid := 42, flags := 2, idle_timeout := 0
    hard_timeout := 0, priority := 100, table_id := 0
    out_port := OF_PORT_DEST_WILDCARD, cookie := 0, cookie_mask := 0
    match_ := { value := 0, mask := 0 }
    effects := { wire_version := Ver.v1_0, outputPorts := [2] } }

/-- A version-1.0 flow-add strict-matching `entryA` but with different
effects. -/
def msgC10 : FlowModMsg :=
  { version := Ver.v1_0, xid := 50, flags := 0, idle_timeout := 0
    hard_timeout := 0, priority := 100, table_id := 0, out_port := 9
    cookie := 0, cookie_mask := 0, match_ := { value := 1, mask := 255 }
    effects := { wire_version := Ver.v1_0, outputPorts := [2] } }

/-- A fully wildcarded version-1.0 flow-stats request. -/
def statsReq0 : FlowStatsReq :=
  { version := Ver.v1_0, xid := 23, table_id := 255
    out_port := OF_PORT_DEST_WILDCARD, cookie := 0, cookie_mask := 0
    match_ := { value := 0, mask := 0 } }

/-- A port-stats request with xid 5. -/
def reqC5 : PortStatsReq := { version := Ver.v1_0, xid := 5, port_no := 7 }

/-- First version-1.0 entry of the streaming-stats scenario. -/
def eW91 : FtEntry :=
  { id := 1, table_id := 0, priority := 0
    match_ := { value := 0, mask := 0 }, cookie := 0
    idle_timeout := 0, hard_timeout := 0, flags := 0
    effects := { wire_version := Ver.v1_0, outputPorts := [] }
    insert_time := 0 }

/-- Second version-1.0 entry of the streaming-stats scenario. -/
def eW92 : FtEntry := { eW91 with id := 2 }

/-- A version-1.3 entry, used by the version-filter scenario. -/
def eW8 : FtEntry :=
  { eW91 with
    id := 3
    effects := { wire_version := Ver.v1_3, outputPorts := [] } }

/-- Core state with the two version-1.0 entries. -/
def sW9 : CoreState :=
  { ft := { entries := [eW91, eW92], adds := 2, deletes := 0
            forwarding_add_errors := 0 }
    nextFlowId := 3 }

/-- Core state with one version-1.0 and one version-1.3 entry. -/
def sW8 : CoreState :=
  { ft := { entries := [eW91, eW8], adds := 2, deletes := 0
            forwarding_add_errors := 0 }
    nextFlowId := 4 }

/-- A fully wildcarded version-1.0 flow-stats request with xid 9. -/
def reqW9 : FlowStatsReq :=
  { version := Ver.v1_0, xid := 9, table_id := 255
    out_port := OF_PORT_DEST_WILDCARD, cookie := 0, cookie_mask := 0
    match_ := { value := 0, mask := 0 } }

/-- A fully wildcarded version-1.3 flow-stats request with xid 8. -/
def reqW8 : FlowStatsReq := { reqW9 with version := Ver.v1_3, xid := 8 }

/-- The partial segment produced by the streaming-stats scenario: both
20000-byte entries appended onto the 10-byte header, flushed at 40010
bytes. -/
def segW9 : FlowStatsReply :=
  { xid := 9, flagsMore := true
    entries := [flow_stats_entry_of envOk reqW9 eW91,
                flow_stats_entry_of envOk reqW9 eW92]
    length := 40010 }

/-- A version-1.2 entry installed in table 7 at priority 100 with a fully
wildcarded match. -/
def entryC7 : FtEntry :=
  { id := 11, table_id := 7, priority := 100
    match_ := { value := 0, mask := 0 }, cookie := 0
    idle_timeout := 0, hard_timeout := 0, flags := 0
    effects := { wire_version := Ver.v1_2, outputPorts := [] }
    insert_time := 0 }

/-- Core state holding exactly `entryC7`. -/
def sC7 : CoreState :=
  { ft := { entries := [entryC7], adds := 1, deletes := 0
            forwarding_add_errors := 0 }
    nextFlowId := 12 }

/-- A version-1.2 flow-add with CHECK_OVERLAP set, priority 100, a fully
wildcarded match and table id 3, so its match-space fully intersects
`entryC7` at equal priority but its overlap query addresses a different
table. -/
def msgC7 : FlowModMsg :=
  { version := Ver.v1_2, xid := 61, flags := 2, idle_timeout := 0
    hard_timeout := 0, priority := 100, table_id := 3
    out_port := OF_PORT_DEST_WILDCARD, cookie := 0, cookie_mask := 0
    match_ := { value := 0, mask := 0 }
    effects := { wire_version := Ver.v1_2, outputPorts := [] } }

/-- The same version-1.2 flow-add aimed at table 7, the table of
`entryC7`. -/
def msgC7b : FlowModMsg := { msgC7 with table_id := 7, xid := 62 }

/-- Entries carried by a concatenation of event lists split additively. -/
theorem sentStatsEntries_append (a b : List WireEvent) :
    sentStatsEntries (a ++ b) = sentStatsEntries a ++ sentStatsEntries b := by
  induction a with
  | nil => rfl
  | cons ev rest ih => simp [sentStatsEntries, ih, List.append_assoc]

/-- One streaming-stats step appends exactly the entry of a version-equal
flow, and nothing for a version-mismatched one, to the accounted entries,
provided reply allocation succeeds and the counter fetch for the flow
succeeds. -/
theorem flow_stats_step_entries (env : Env) (cxn_id : Nat) (req : FlowStatsReq)
    (acc : FlowStatsAcc) (e : FtEntry)
    (hR : env.replyAllocOk = true)
    (hS : env.flow_stats_rv e.id = IndigoErr.none) :
    accStatsEntries (ind_core_flow_stats_iter_step env cxn_id req acc e) =
      accStatsEntries acc ++
        (if req.version = e.effects.wire_version
         then [flow_stats_entry_of env req e] else []) := by
  unfold ind_core_flow_stats_iter_step
  cases hrep : acc.reply with
  | some r =>
      simp only [hrep, hS, ne_eq, not_true_eq_false, if_false, reduceCtorEq]
      by_cases hv : req.version = e.effects.wire_version
      · simp only [hv, not_true_eq_false, if_false, if_true]
        split
        · simp [accStatsEntries, hrep, sentStatsEntries_append,
            sentStatsEntries, segEntries, List.append_assoc]
        · simp [accStatsEntries, hrep, List.append_assoc]
      · simp [accStatsEntries, hrep, hv]
  | none =>
      simp only [hrep, hR, if_true, hS, ne_eq, not_true_eq_false, if_false,
        reduceCtorEq]
      by_cases hv : req.version = e.effects.wire_version
      · simp only [hv, not_true_eq_false, if_false, if_true]
        split
        · simp [accStatsEntries, hrep, sentStatsEntries_append,
            sentStatsEntries, segEntries, freshFlowStatsReply, List.append_assoc]
        · simp [accStatsEntries, hrep, freshFlowStatsReply, List.append_assoc]
      · simp [accStatsEntries, hrep, hv, freshFlowStatsReply]

/-- Folding the streaming-stats step over a list of flows appends exactly
the entries of the version-equal flows, in order. -/
theorem flow_stats_fold_entries (env : Env) (cxn_id : Nat) (req : FlowStatsReq)
    (hR : env.replyAllocOk = true) :
    ∀ (l : List FtEntry) (acc : FlowStatsAcc),
      (∀ e ∈ l, env.flow_stats_rv e.id = IndigoErr.none) →
      accStatsEntries (l.foldl (ind_core_flow_stats_iter_step env cxn_id req) acc) =
        accStatsEntries acc ++
          (l.filter (fun e => decide (req.version = e.effects.wire_version))).map
            (flow_stats_entry_of env req) := by
  intro l
  induction l with
  | nil => intro acc _; simp
  | cons e rest ih =>
      intro acc h
      simp only [List.foldl_cons, List.filter_cons]
      rw [ih _ (fun x hx => h x (List.mem_cons_of_mem _ hx))]
      rw [flow_stats_step_entries env cxn_id req acc e hR (h e (List.mem_cons_self _ _))]
      by_cases hv : req.version = e.effects.wire_version
      · simp [hv, List.append_assoc]
      · simp [hv]

/-- The terminal streaming-stats step flushes exactly the accounted
entries onto the wire. -/
theorem flow_stats_done_entries (env : Env) (cxn_id : Nat) (req : FlowStatsReq)
    (acc : FlowStatsAcc) (hR : env.replyAllocOk = true) :
    sentStatsEntries (ind_core_flow_stats_iter_done env cxn_id req acc).events =
      accStatsEntries acc := by
  unfold ind_core_flow_stats_iter_done
  cases hrep : acc.reply with
  | some r =>
      simp [accStatsEntries, hrep, sentStatsEntries_append, sentStatsEntries,
        segEntries]
  | none =>
      simp [hR, accStatsEntries, hrep, sentStatsEntries_append, sentStatsEntries,
        segEntries, freshFlowStatsReply]

/-- C8: during a flow-stats iteration in which every counter fetch and
every allocation succeeds, a matched flow-table entry contributes an
entry to the stats reply stream if and only if the wire version of its
effects equals the version of the request: the entries sent are exactly
those of the version-equal matched flows, in table order. -/
theorem c8_stats_version_filter (env : Env) (cxn_id : Nat) (s : CoreState)
    (req : FlowStatsReq)
    (hMG : env.match_get_rv = IndigoErr.none)
    (hA : env.allocOk = true)
    (hSp : env.spawn_rv = IndigoErr.none)
    (hR : env.replyAllocOk = true)
    (hS : ∀ fid, env.flow_stats_rv fid = IndigoErr.none) :
    sentStatsEntries (ind_core_flow_stats_request_handler env cxn_id s req).events =
      ((s.ft.entries.filter
          (fun e => ft_entry_meta_match (flow_stats_query req) e)).filter
        (fun e => decide (req.version = e.effects.wire_version))).map
        (flow_stats_entry_of env req) := by
  unfold ind_core_flow_stats_request_handler
  simp only [hMG, ne_eq, not_true_eq_false, if_false, hA, if_true, hSp,
    reduceCtorEq, reduceIte]
  rw [flow_stats_done_entries env cxn_id req _ hR]
  rw [flow_stats_fold_entries env cxn_id req hR _ _ (fun e _ => hS e.id)]
  simp [accStatsEntries, sentStatsEntries]

/-- C8 witness: with one version-1.0 and one version-1.3 entry installed,
a version-1.3 flow-stats request streams back exactly the entry of the
version-1.3 flow. -/
theorem c8_stats_version_filter_witness :
    sentStatsEntries (ind_core_flow_stats_request_handler envOk 0 sW8 reqW8).events =
      [flow_stats_entry_of envOk reqW8 eW8] := by
  refine (c8_stats_version_filter envOk 0 sW8 reqW8 rfl rfl rfl rfl
    (fun _ => rfl)).trans ?_
  decide


/-- One streaming-stats step preserves the size invariant: segments sent
stay within one entry of the 32 KiB threshold and the pending reply stays
at most 32 KiB and partial-flagged. -/
theorem flow_stats_step_within (env : Env) (cxn_id : Nat) (req : FlowStatsReq)
    (B : Nat) (acc : FlowStatsAcc) (e : FtEntry)
    (hH : env.replyHeaderLen ≤ 1 <<< 15)
    (hB : env.entrySize e ≤ B)
    (hacc : statsAccWithin B acc) :
    statsAccWithin B (ind_core_flow_stats_iter_step env cxn_id req acc e) := by
  obtain ⟨hevs, hpend⟩ := hacc
  unfold ind_core_flow_stats_iter_step
  cases hrep : acc.reply with
  | some r =>
      obtain ⟨hrlen, hrmore⟩ := hpend r hrep
      simp only []
      split
      · exact ⟨hevs, fun r2 h2 => by cases h2; exact ⟨hrlen, hrmore⟩⟩
      · split
        · exact ⟨hevs, fun r2 h2 => by cases h2; exact ⟨hrlen, hrmore⟩⟩
        · split
          · rename_i hlen
            constructor
            · intro ev hev
              simp only [List.mem_append, List.mem_singleton] at hev
              rcases hev with h | rfl
              · exact hevs ev h
              · exact ⟨Nat.add_le_add hrlen hB, fun _ => hlen,
                  fun hf => by rw [hrmore] at hf; exact Bool.noConfusion hf⟩
            · intro r2 h2
              exact Option.noConfusion h2
          · rename_i hlen
            exact ⟨hevs, fun r2 h2 => by
              cases h2; exact ⟨Nat.le_of_not_lt hlen, hrmore⟩⟩
  | none =>
      cases hok : env.replyAllocOk with
      | false =>
          simp only [hok, if_false]
          exact ⟨hevs, hpend⟩
      | true =>
          simp only [hok, if_true]
          split
          · exact ⟨hevs, fun r2 h2 => by cases h2; exact ⟨hH, rfl⟩⟩
          · split
            · exact ⟨hevs, fun r2 h2 => by cases h2; exact ⟨hH, rfl⟩⟩
            · split
              · rename_i hlen
                constructor
                · intro ev hev
                  simp only [List.mem_append, List.mem_singleton] at hev
                  rcases hev with h | rfl
                  · exact hevs ev h
                  · exact ⟨Nat.add_le_add hH hB, fun _ => hlen,
                      fun hf => Bool.noConfusion hf⟩
                · intro r2 h2
                  exact Option.noConfusion h2
              · rename_i hlen
                exact ⟨hevs, fun r2 h2 => by
                  cases h2; exact ⟨Nat.le_of_not_lt hlen, rfl⟩⟩

/-- Folding the streaming-stats step over any list of flows preserves the
size invariant. -/
theorem flow_stats_fold_within (env : Env) (cxn_id : Nat) (req : FlowStatsReq)
    (B : Nat) (hH : env.replyHeaderLen ≤ 1 <<< 15)
    (hB : ∀ e, env.entrySize e ≤ B) :
    ∀ (l : List FtEntry) (acc : FlowStatsAcc), statsAccWithin B acc →
      statsAccWithin B (l.foldl (ind_core_flow_stats_iter_step env cxn_id req) acc) := by
  intro l
  induction l with
  | nil => intro acc h; exact h
  | cons e rest ih =>
      intro acc h
      exact ih _ (flow_stats_step_within env cxn_id req B acc e hH (hB e) h)

/-- The terminal streaming-stats step only adds a final segment that is at
most 32 KiB, so from the invariant every event it leaves behind satisfies
the size bounds. -/
theorem flow_stats_done_within (env : Env) (cxn_id : Nat) (req : FlowStatsReq)
    (B : Nat) (acc : FlowStatsAcc)
    (hH : env.replyHeaderLen ≤ 1 <<< 15)
    (hacc : statsAccWithin B acc) :
    ∀ ev ∈ (ind_core_flow_stats_iter_done env cxn_id req acc).events,
      eventWithin B ev := by
  obtain ⟨hevs, hpend⟩ := hacc
  unfold ind_core_flow_stats_iter_done
  cases hrep : acc.reply with
  | some r =>
      obtain ⟨hrlen, hrmore⟩ := hpend r hrep
      intro ev hev
      simp only [List.mem_append, List.mem_singleton] at hev
      rcases hev with h | rfl
      · exact hevs ev h
      · exact ⟨Nat.le_add_right_of_le hrlen, fun hf => Bool.noConfusion hf,
          fun _ => hrlen⟩
  | none =>
      cases hok : env.replyAllocOk with
      | false =>
          simp only [hok, if_false]
          exact hevs
      | true =>
          simp only [hok, if_true]
          intro ev hev
          simp only [List.mem_append, List.mem_singleton] at hev
          rcases hev with h | rfl
          · exact hevs ev h
          · exact ⟨Nat.le_add_right_of_le hH, fun hf => Bool.noConfusion hf,
              fun _ => hH⟩

/-- C9 (amended): during streaming flow-stats, a partial (more set) reply
is sent and cleared as soon as an append has made its length exceed
32 KiB; hence every partial segment exceeds 32 KiB when it is sent, by at
most the size of one appended entry, and only the final (more cleared)
segment is guaranteed to be at most 32 KiB, given that the empty reply
header fits in 32 KiB and every appended entry is at most `B` bytes. -/
theorem c9_segment_bound_amended (env : Env) (cxn_id : Nat) (s : CoreState)
    (req : FlowStatsReq) (B : Nat)
    (hH : env.replyHeaderLen ≤ 1 <<< 15)
    (hB : ∀ e, env.entrySize e ≤ B) :
    ∀ c r, WireEvent.statsReplySegment c r ∈
        (ind_core_flow_stats_request_handler env cxn_id s req).events →
      r.length ≤ 1 <<< 15 + B ∧
      (r.flagsMore = true → 1 <<< 15 < r.length) ∧
      (r.flagsMore = false → r.length ≤ 1 <<< 15) := by
  intro c r hmem
  have key : ∀ ev ∈ (ind_core_flow_stats_request_handler env cxn_id s req).events,
      eventWithin B ev := by
    unfold ind_core_flow_stats_request_handler
    split
    · intro ev hev
      simp at hev
    · split
      · split
        · exact flow_stats_done_within env cxn_id req B _ hH
            (flow_stats_fold_within env cxn_id req B hH hB _ _
              ⟨fun ev hev => absurd hev (List.not_mem_nil ev),
               fun r2 h2 => Option.noConfusion h2⟩)
        · intro ev hev
          simp at hev
      · intro ev hev
        simp at hev
  exact key _ hmem

/-- C9 counterexample: with two 20000-byte entries and a 10-byte header,
the streaming flow-stats run sends a partial segment of 40010 bytes,
which exceeds 32 KiB at the moment it is sent; the reply is flushed only
after the append that crossed the threshold, not before. -/
theorem c9_segment_exceeds_32k :
    WireEvent.statsReplySegment 0 segW9 ∈
      (ind_core_flow_stats_request_handler envOk 0 sW9 reqW9).events ∧
    1 <<< 15 < segW9.length := by
  decide

/-- C9 witness: the partial segment of the concrete streaming run indeed
exceeds 32 KiB and stays within one 20000-byte entry of the threshold. -/
theorem c9_segment_bound_amended_witness :
    1 <<< 15 < segW9.length ∧ segW9.length ≤ 1 <<< 15 + 20000 := by
  have h := c9_segment_bound_amended envOk 0 sW9 reqW9 20000 (by decide)
    (fun _ => Nat.le_refl 20000) 0 segW9 (by decide)
  exact ⟨h.2.1 rfl, h.1⟩

/-- C1: the claim holds for the flow-delete, flow-stats and
aggregate-stats handlers, but the flow-modify handler returns RESOURCE on
a bookkeeping-state allocation failure without releasing the inbound
message.  Evaluated at the failing input: allocation of the iteration
state fails while everything else is benign. -/
theorem c1_alloc_failure_behavior :
    ((ind_core_flow_modify_handler envAllocFail 0 s0 msg0).released = 0 ∧
     (ind_core_flow_modify_handler envAllocFail 0 s0 msg0).ret = IndigoErr.resource ∧
     (ind_core_flow_modify_handler envAllocFail 0 s0 msg0).events = []) ∧
    ((ind_core_flow_delete_handler envAllocFail 0 s0 msg0).released = 1 ∧
     (ind_core_flow_delete_handler envAllocFail 0 s0 msg0).ret = IndigoErr.resource ∧
     (ind_core_flow_delete_handler envAllocFail 0 s0 msg0).events = []) ∧
    ((ind_core_flow_stats_request_handler envAllocFail 0 s0 statsReq0).released = 1 ∧
     (ind_core_flow_stats_request_handler envAllocFail 0 s0 statsReq0).ret = IndigoErr.resource ∧
     (ind_core_flow_stats_request_handler envAllocFail 0 s0 statsReq0).events = []) ∧
    ((ind_core_aggregate_stats_request_handler envAllocFail 0 s0 statsReq0).released = 1 ∧
     (ind_core_aggregate_stats_request_handler envAllocFail 0 s0 statsReq0).ret = IndigoErr.resource ∧
     (ind_core_aggregate_stats_request_handler envAllocFail 0 s0 statsReq0).events = []) := by
  decide

/-- C5: the code sends the port-stats failure error with xid 0 rather
than the xid of the failed request.  Evaluated at the failing input: a
port-stats request with xid 5 whose port-manager stats fetch fails; the
emitted error carries xid 0. -/
theorem c5_port_stats_error_xid_zero :
    (ind_core_port_stats_request_handler envC5 7 reqC5).events =
      [WireEvent.errorMsg Ver.v1_0 7 0 (ErrType.raw 0) (ErrCode.raw 0)] ∧
    reqC5.xid = 5 := by
  decide

/-- C4 counterexample: the xid allocator is a plain post-increment; from
the counter value two to the 32 minus one, the following call returns
zero, so the xid allocator does not skip zero on wrap-around. -/
theorem c4_xid_alloc_returns_zero_on_wrap :
    (ind_core_xid_alloc (2 ^ 32 - 1)).2 = 0 ∧
    (ind_core_xid_alloc ((ind_core_xid_alloc (2 ^ 32 - 1)).2)).1 = 0 := by
  decide

/-- C4 (amended): the xid allocator returns each stored value and
advances by one modulo two to the 32, returning zero when it wraps; only
the flow-id allocator skips zero on wrap-around and, started from a
nonzero counter, never returns zero. -/
theorem c4_allocators_amended (n : Nat) :
    (ind_core_xid_alloc n).1 = n ∧
    (ind_core_xid_alloc n).2 = (n + 1) % 2 ^ 32 ∧
    ((n + 1) % 2 ^ 32 = 0 → (flow_id_next n).2 = 1) ∧
    ((n + 1) % 2 ^ 32 ≠ 0 → (flow_id_next n).2 = (n + 1) % 2 ^ 32) ∧
    (n ≠ 0 →
      (flow_id_next n).1 = n ∧ (flow_id_next n).1 ≠ 0 ∧ (flow_id_next n).2 ≠ 0) := by
  refine ⟨rfl, rfl, ?_, ?_, ?_⟩
  · intro h
    unfold flow_id_next
    simp only []
    rw [if_pos h]
  · intro h
    unfold flow_id_next
    simp only []
    rw [if_neg h]
  · intro h
    refine ⟨rfl, h, ?_⟩
    unfold flow_id_next
    simp only []
    split
    · exact Nat.one_ne_zero
    · rename_i hz
      exact hz

/-- C4 witness: at the wrap-around point the xid allocator steps to zero
while the flow-id allocator steps to one and still returns a nonzero
value. -/
theorem c4_allocators_amended_witness :
    (ind_core_xid_alloc 4294967295).2 = 0 ∧
    (flow_id_next 4294967295).2 = 1 ∧
    (flow_id_next 4294967295).1 ≠ 0 := by
  have h := c4_allocators_amended 4294967295
  exact ⟨h.2.1.trans (by decide), h.2.2.1 (by decide), (h.2.2.2.2 (by decide)).2.1⟩

/-- The flow-add handler releases the inbound message exactly once and
returns NONE on every path; shared fact used by several results below. -/
theorem flow_add_released_ret (env : Env) (cxn_id : Nat) (s : CoreState)
    (obj : FlowModMsg) :
    (ind_core_flow_add_handler env cxn_id s obj).released = 1 ∧
    (ind_core_flow_add_handler env cxn_id s obj).ret = IndigoErr.none := by
  unfold ind_core_flow_add_handler
  repeat' split
  all_goals exact ⟨rfl, rfl⟩

/-- C3: the flow-add handler releases the inbound message exactly once on
every exit path and returns the internal error NONE on every path,
whatever the environment, state and message (covering the
overlap-rejected, bad-emergency-timeout, query-failure, table-insert
failure and forwarding-failure paths). -/
theorem c3_flow_add_release_once_return_none (env : Env) (cxn_id : Nat)
    (s : CoreState) (obj : FlowModMsg) :
    (ind_core_flow_add_handler env cxn_id s obj).released = 1 ∧
    (ind_core_flow_add_handler env cxn_id s obj).ret = IndigoErr.none :=
  flow_add_released_ret env cxn_id s obj

/-- C2 counterexample: a version-1.0 flow-add with the EMERG flag and a
nonzero idle timeout makes the handler send the BAD_EMERG_TIMEOUT error,
yet the handler returns NONE, not PARAM, to its caller. -/
theorem c2_emerg_timeout_returns_none_not_param :
    (ind_core_flow_add_handler envOk 0 s0 msgEmerg).ret ≠ IndigoErr.param ∧
    (ind_core_flow_add_handler envOk 0 s0 msgEmerg).ret = IndigoErr.none ∧
    (ind_core_flow_add_handler envOk 0 s0 msgEmerg).events =
      [WireEvent.errorMsg Ver.v1_0 0 77 ErrType.flowModFailed
        ErrCode.badEmergTimeout] := by
  decide

/-- C2 (amended): for every flow-add message whose EMERG flag is set and
whose idle or hard timeout is nonzero, and which the overlap check has
not already rejected, the handler sends a FLOW_MOD_FAILED /
BAD_EMERG_TIMEOUT error carrying the request xid and returns the
internal error NONE to its caller (the PARAM status is computed but
overwritten by the unconditional NONE return at the exit label), leaving
the flow table untouched and releasing the message once. -/
theorem c2_emerg_timeout_amended (env : Env) (cxn_id : Nat) (s : CoreState)
    (obj : FlowModMsg)
    (hNoOv : ¬(obj.flags &&& OF_FLOW_MOD_FLAG_CHECK_OVERLAP_BY_VERSION obj.version ≠ 0
        ∧ overlap_found env s.ft obj ≠ 0))
    (hE : obj.flags &&& OF_FLOW_MOD_FLAG_EMERG_BY_VERSION obj.version ≠ 0)
    (hT : obj.idle_timeout ≠ 0 ∨ obj.hard_timeout ≠ 0) :
    ind_core_flow_add_handler env cxn_id s obj =
      { ft := s.ft, nextFlowId := s.nextFlowId
        events := [WireEvent.errorMsg obj.version cxn_id obj.xid
          ErrType.flowModFailed ErrCode.badEmergTimeout]
        calls := [], released := 1, ret := IndigoErr.none } := by
  unfold ind_core_flow_add_handler
  rw [if_neg hNoOv, if_pos ⟨hE, hT⟩]
  rfl

/-- C2 witness: the amended statement applied to the concrete emergency
message with a nonzero idle timeout on the empty table. -/
theorem c2_emerg_timeout_amended_witness :
    ind_core_flow_add_handler envOk 0 s0 msgEmerg =
      { ft := s0.ft, nextFlowId := s0.nextFlowId
        events := [WireEvent.errorMsg msgEmerg.version 0 msgEmerg.xid
          ErrType.flowModFailed ErrCode.badEmergTimeout]
        calls := [], released := 1, ret := IndigoErr.none } :=
  c2_emerg_timeout_amended envOk 0 s0 msgEmerg (by decide) (by decide)
    (Or.inl (by decide))

/-- C6: a MODIFY (non-strict) or MODIFY-STRICT whose query matches no
entry of the flow table produces exactly the handler outcome (flow table,
flow-id counter, wire messages, forwarding calls, message releases and
return value) that an ADD with the same message produces, provided the
bookkeeping allocation, the query setup and the task spawn succeed. -/
theorem c6_treat_as_add (env : Env) (cxn_id : Nat) (s : CoreState) (obj : FlowModMsg)
    (hA : env.allocOk = true) (hMG : env.match_get_rv = IndigoErr.none)
    (hSp : env.spawn_rv = IndigoErr.none) :
    (s.ft.entries.filter
        (fun e => ft_entry_meta_match (flow_mod_query obj MatchMode.nonStrict true) e) = [] →
      ind_core_flow_modify_handler env cxn_id s obj =
        ind_core_flow_add_handler env cxn_id s obj) ∧
    (ft_strict_match s.ft (flow_mod_query obj MatchMode.strict true) = none →
      ind_core_flow_modify_strict_handler env cxn_id s obj =
        ind_core_flow_add_handler env cxn_id s obj) := by
  constructor
  · intro hEmpty
    have hret := (flow_add_released_ret env cxn_id s obj).2
    unfold ind_core_flow_modify_handler
    simp only [flow_mod_setup_query, hA, hMG, hSp, hEmpty, ne_eq,
      not_true_eq_false, if_false, if_true, reduceCtorEq, List.foldl_nil]
    rw [← hret]
    rfl
  · intro hNone
    unfold ind_core_flow_modify_strict_handler
    simp only [flow_mod_setup_query, hMG, hNone, ne_eq, not_true_eq_false,
      if_false, reduceCtorEq]

/-- C6 witness: on the empty flow table, the concrete modify and
modify-strict runs coincide with the add run for the same message. -/
theorem c6_treat_as_add_witness :
    ind_core_flow_modify_handler envOk 0 s0 msg0 =
      ind_core_flow_add_handler envOk 0 s0 msg0 ∧
    ind_core_flow_modify_strict_handler envOk 0 s0 msg0 =
      ind_core_flow_add_handler envOk 0 s0 msg0 := by
  have h := c6_treat_as_add envOk 0 s0 msg0 rfl rfl rfl
  exact ⟨h.1 (by decide), h.2 (by decide)⟩

/-- C7 counterexample: a version-1.2 flow-add with CHECK_OVERLAP set
whose match-space fully intersects an installed entry at equal priority
is nonetheless installed when that entry lives in a different table: the
overlap query of a version-1.1-or-later message carries the message
table id, so the scan skips the entry, no OVERLAP error is sent, and the
table grows from one entry to two. -/
theorem c7_overlap_wrong_table_installed :
    (∃ e ∈ sC7.ft.entries, e.priority = msgC7.priority ∧
      matchOverlaps msgC7.match_ e.match_ = true) ∧
    msgC7.flags &&& OF_FLOW_MOD_FLAG_CHECK_OVERLAP_BY_VERSION msgC7.version ≠ 0 ∧
    (ind_core_flow_add_handler envOk 0 sC7 msgC7).events = [] ∧
    (ind_core_flow_add_handler envOk 0 sC7 msgC7).ft.entries.length = 2 := by
  decide

/-- C7 (amended): for every flow-add with CHECK_OVERLAP set whose decode
succeeds, if some existing entry at equal priority shares a point of
match-space with the new flow and lies in a table the overlap query
addresses (the query table id is the ANY sentinel for version-1.0
messages and the message table id for 1.1 and later), the handler emits
a FLOW_MOD_FAILED / OVERLAP error carrying the request xid, installs no
new entry (state unchanged), makes no forwarding call, releases the
request once and returns success. -/
theorem c7_overlap_exclusion_amended (env : Env) (cxn_id : Nat) (s : CoreState)
    (obj : FlowModMsg)
    (hflag : obj.flags &&& OF_FLOW_MOD_FLAG_CHECK_OVERLAP_BY_VERSION obj.version ≠ 0)
    (hMG : env.match_get_rv = IndigoErr.none)
    (hov : ∃ e ∈ s.ft.entries,
      ((flow_mod_query obj MatchMode.overlap true).table_id = TABLE_ID_ANY ∨
       (flow_mod_query obj MatchMode.overlap true).table_id = e.table_id) ∧
      e.priority = obj.priority ∧
      matchOverlaps obj.match_ e.match_ = true) :
    ind_core_flow_add_handler env cxn_id s obj =
      { ft := s.ft, nextFlowId := s.nextFlowId
        events := [WireEvent.errorMsg obj.version cxn_id obj.xid
          ErrType.flowModFailed ErrCode.overlap]
        calls := [], released := 1, ret := IndigoErr.none } := by
  have hfound : overlap_found env s.ft obj = 1 := by
    unfold overlap_found
    simp only [flow_mod_setup_query, hMG, ne_eq, not_true_eq_false, if_false,
      reduceCtorEq]
    rw [if_pos]
    obtain ⟨e, he, ht, hp, hm⟩ := hov
    refine List.any_eq_true.mpr ⟨e, he, ?_⟩
    unfold ft_entry_meta_match
    simp only [flow_mod_query] at ht ⊢
    rcases ht with ht | ht <;> rw [ht] <;> simp [hp, hm]
  unfold ind_core_flow_add_handler
  rw [if_pos ⟨hflag, by rw [hfound]; decide⟩]
  rfl

/-- C7 witness: the amended statement at two concrete inputs, covering
both table-qualification cases: the version-1.0 wildcard flow-add with
CHECK_OVERLAP against `entryA` (query table ANY), and the version-1.2
flow-add aimed at table 7 against `entryC7` (query table equal to the
entry table); both are rejected with an OVERLAP error carrying their
xid, with the state unchanged. -/
theorem c7_overlap_exclusion_amended_witness :
    ind_core_flow_add_handler envOk 0 sA msgOverlapB =
      { ft := sA.ft, nextFlowId := sA.nextFlowId
        events := [WireEvent.errorMsg msgOverlapB.version 0 msgOverlapB.xid
          ErrType.flowModFailed ErrCode.overlap]
        calls := [], released := 1, ret := IndigoErr.none } ∧
    ind_core_flow_add_handler envOk 0 sC7 msgC7b =
      { ft := sC7.ft, nextFlowId := sC7.nextFlowId
        events := [WireEvent.errorMsg msgC7b.version 0 msgC7b.xid
          ErrType.flowModFailed ErrCode.overlap]
        calls := [], released := 1, ret := IndigoErr.none } :=
  ⟨c7_overlap_exclusion_amended envOk 0 sA msgOverlapB (by decide) rfl (by decide),
   c7_overlap_exclusion_amended envOk 0 sC7 msgC7b (by decide) rfl (by decide)⟩

/-- C10: when a flow-add strict-matches an existing entry and the
forwarding-layer create of the new flow then fails, the flow table
afterwards contains neither the old entry (deleted with cause OVERWRITE
before the insert) nor the new one (removed after the failure); the
forwarding calls show the delete of the old flow preceding the create of
the new one, and the overwrite is not rolled back. -/
theorem c10_overwrite_not_rolled_back (env : Env) (cxn_id : Nat) (s : CoreState)
    (obj : FlowModMsg) (q : MetaMatch) (e : FtEntry)
    (hflag1 : obj.flags &&& OF_FLOW_MOD_FLAG_CHECK_OVERLAP_BY_VERSION obj.version = 0)
    (hflag2 : obj.flags &&& OF_FLOW_MOD_FLAG_EMERG_BY_VERSION obj.version = 0)
    (hq : flow_mod_setup_query env obj MatchMode.strict true = Except.ok q)
    (hsm : ft_strict_match s.ft q = some e)
    (hadd : env.ft_add_rv = IndigoErr.none)
    (hcr : env.flow_create_rv ≠ IndigoErr.none)
    (hfresh : ∀ x ∈ s.ft.entries, x.id ≠ s.nextFlowId) :
    (ind_core_flow_add_handler env cxn_id s obj).ft.entries =
      s.ft.entries.filter (fun x => x.id != e.id) ∧
    (ind_core_flow_add_handler env cxn_id s obj).calls =
      [FwdCall.flowDelete e.id, FwdCall.flowCreate s.nextFlowId] := by
  unfold ind_core_flow_add_handler
  rw [if_neg (by simp [hflag1]), if_neg (by simp [hflag2]), hq]
  simp only [hsm, hadd, if_true, reduceCtorEq]
  rw [if_neg hcr]
  constructor
  · simp only [ind_core_flow_entry_delete, ft_delete, ft_add, ftEntryFromMsg,
      flow_id_next]
    simp only [List.filter_append]
    rw [List.filter_filter]
    simp only [List.filter_cons, List.filter_nil, bne_self_eq_false,
      Bool.false_eq_true, if_false, List.append_nil]
    refine List.filter_congr ?_
    intro a ha
    rw [bne_iff_ne.mpr (hfresh a ha), Bool.true_and]
  · rfl

/-- C10 witness: overwriting `entryA` with a strict-matching flow whose
forwarding create fails leaves the table empty, after a forwarding delete
of the old flow id 10 and a forwarding create of the new flow id 2. -/
theorem c10_overwrite_not_rolled_back_witness :
    (ind_core_flow_add_handler envC10 0 sA msgC10).ft.entries = [] ∧
    (ind_core_flow_add_handler envC10 0 sA msgC10).calls =
      [FwdCall.flowDelete 10, FwdCall.flowCreate 2] := by
  have h := c10_overwrite_not_rolled_back envC10 0 sA msgC10
    (flow_mod_query msgC10 MatchMode.strict true) entryA (by decide) (by decide)
    rfl (by decide) rfl (by decide) (by decide)
  exact ⟨h.1.trans (by decide), h.2.trans (by decide)⟩
